import Mathlib

/-!
# DualSense client header `DS5/ds5w.h`: a verification development

A shallow embedding of the public header of the DualSense driver library.
The header declares the wire-level constants (button flags, player-LED
flags), the return-value enumeration with its `DS5W_SUCCESS` / `DS5W_FAILED`
macros, the trigger-effect enumeration and the byte layout of its payload
union, the calibration triple, and the prototypes of the session functions.

Unsigned machine words are natural numbers, reduced modulo `2 ^ w` where a
width matters.
-/

namespace DS5W

/-! ## Button flags (`ds5w.h` lines 129-158) -/

def DS5W_ISTATE_BTN_DPAD_LEFT : Nat := 0x01
def DS5W_ISTATE_BTN_DPAD_DOWN : Nat := 0x02
def DS5W_ISTATE_BTN_DPAD_RIGHT : Nat := 0x04
def DS5W_ISTATE_BTN_DPAD_UP : Nat := 0x08

def DS5W_ISTATE_BTN_SQUARE : Nat := 0x10
def DS5W_ISTATE_BTN_CROSS : Nat := 0x20
def DS5W_ISTATE_BTN_CIRCLE : Nat := 0x40
def DS5W_ISTATE_BTN_TRIANGLE : Nat := 0x80

def DS5W_ISTATE_BTN_BUMPER_LEFT : Nat := 0x0100
def DS5W_ISTATE_BTN_BUMPER_RIGHT : Nat := 0x0200
def DS5W_ISTATE_BTN_TRIGGER_LEFT : Nat := 0x0400
def DS5W_ISTATE_BTN_TRIGGER_RIGHT : Nat := 0x0800

def DS5W_ISTATE_BTN_SELECT : Nat := 0x1000
def DS5W_ISTATE_BTN_MENU : Nat := 0x2000

def DS5W_ISTATE_BTN_STICK_LEFT : Nat := 0x4000
def DS5W_ISTATE_BTN_STICK_RIGHT : Nat := 0x8000

def DS5W_ISTATE_BTN_PLAYSTATION_LOGO : Nat := 0x010000
def DS5W_ISTATE_BTN_PAD_BUTTON : Nat := 0x020000
def DS5W_ISTATE_BTN_MIC_BUTTON : Nat := 0x040000

/-- The nineteen `DS5W_ISTATE_BTN_*` flags, in the order of the header. -/
def buttonFlags : List Nat :=
  [ DS5W_ISTATE_BTN_DPAD_LEFT, DS5W_ISTATE_BTN_DPAD_DOWN,
    DS5W_ISTATE_BTN_DPAD_RIGHT, DS5W_ISTATE_BTN_DPAD_UP,
    DS5W_ISTATE_BTN_SQUARE, DS5W_ISTATE_BTN_CROSS,
    DS5W_ISTATE_BTN_CIRCLE, DS5W_ISTATE_BTN_TRIANGLE,
    DS5W_ISTATE_BTN_BUMPER_LEFT, DS5W_ISTATE_BTN_BUMPER_RIGHT,
    DS5W_ISTATE_BTN_TRIGGER_LEFT, DS5W_ISTATE_BTN_TRIGGER_RIGHT,
    DS5W_ISTATE_BTN_SELECT, DS5W_ISTATE_BTN_MENU,
    DS5W_ISTATE_BTN_STICK_LEFT, DS5W_ISTATE_BTN_STICK_RIGHT,
    DS5W_ISTATE_BTN_PLAYSTATION_LOGO, DS5W_ISTATE_BTN_PAD_BUTTON,
    DS5W_ISTATE_BTN_MIC_BUTTON ]

/-- Bitwise OR of a list of flags, as the C expression `f1 | f2 | ... | fn`
(the empty expression being `0`). -/
def orAll (flags : List Nat) : Nat :=
  flags.foldr (fun f acc => f ||| acc) 0

/-- The value stored in `DS5InputState::buttonMap` (an `unsigned int`, 32
bits) when the given flags are OR-ed into it. -/
def buttonMap (flags : List Nat) : Nat :=
  orAll flags % 2 ^ 32

/-! ## Player-LED flags (`ds5w.h` lines 160-164) -/

def DS5W_OSTATE_PLAYER_LED_LEFT : Nat := 0x01
def DS5W_OSTATE_PLAYER_LED_MIDDLE_LEFT : Nat := 0x02
def DS5W_OSTATE_PLAYER_LED_MIDDLE : Nat := 0x04
def DS5W_OSTATE_PLAYER_LED_MIDDLE_RIGHT : Nat := 0x08
def DS5W_OSTATE_PLAYER_LED_RIGHT : Nat := 0x10

/-- The five `DS5W_OSTATE_PLAYER_LED_*` flags, in the order of the header. -/
def playerLedFlags : List Nat :=
  [ DS5W_OSTATE_PLAYER_LED_LEFT, DS5W_OSTATE_PLAYER_LED_MIDDLE_LEFT,
    DS5W_OSTATE_PLAYER_LED_MIDDLE, DS5W_OSTATE_PLAYER_LED_MIDDLE_RIGHT,
    DS5W_OSTATE_PLAYER_LED_RIGHT ]

/-- The value stored in `PlayerLeds::bitmask` (an `unsigned char`, 8 bits)
when the given flags are OR-ed into it. -/
def playerLedBitmask (flags : List Nat) : Nat :=
  orAll flags % 2 ^ 8

/-! ## Return values (`ds5w.h` lines 41-127) -/

/-- The enumeration `_DS5W_ReturnValue` (typedef names `DS5W_ReturnValue`,
`DS5W_RV`) as declared at lines 61-127 of the header. -/
inductive DS5W_ReturnValue
  | OK
  | E_UNKNOWN
  | E_INSUFFICIENT_BUFFER
  | E_EXTERNAL_WINAPI
  | E_STACK_OVERFLOW
  | E_INVALID_ARGS
  | E_CURRENTLY_NOT_SUPPORTED
  | E_DEVICE_REMOVED
  | E_BT_COM
  | E_IO_TIMEDOUT
  | E_IO_FAILED
  | E_IO_NOT_FOUND
  | E_IO_PENDING
  deriving DecidableEq, Repr, Fintype

namespace DS5W_ReturnValue

/-- The enumerator values written in the header (underlying type
`unsigned int`). -/
def code : DS5W_ReturnValue → Nat
  | OK => 0
  | E_UNKNOWN => 1
  | E_INSUFFICIENT_BUFFER => 2
  | E_EXTERNAL_WINAPI => 3
  | E_STACK_OVERFLOW => 4
  | E_INVALID_ARGS => 5
  | E_CURRENTLY_NOT_SUPPORTED => 6
  | E_DEVICE_REMOVED => 7
  | E_BT_COM => 8
  | E_IO_TIMEDOUT => 9
  | E_IO_FAILED => 10
  | E_IO_NOT_FOUND => 11
  | E_IO_PENDING => 12

/-- The `<summary>` documentation line the header attaches to each
enumerator, verbatim. -/
def summary : DS5W_ReturnValue → String
  | OK => "Operation completed without an error"
  | E_UNKNOWN => "Operation encountered an unknown error"
  | E_INSUFFICIENT_BUFFER => "The user supplied buffer is to small"
  | E_EXTERNAL_WINAPI =>
      "External unexpected winapi error (please report as issue if you get this error!)"
  | E_STACK_OVERFLOW => "Not enought memory on the stack"
  | E_INVALID_ARGS => "Invalid arguments"
  | E_CURRENTLY_NOT_SUPPORTED => "This feature is currently not supported"
  | E_DEVICE_REMOVED => "Device was disconnected"
  | E_BT_COM => "Bluetooth communication error"
  | E_IO_TIMEDOUT => "IO timeout"
  | E_IO_FAILED => "IO failed"
  | E_IO_NOT_FOUND => "Overlapped IO request was not found"
  | E_IO_PENDING => "IO did not complete because it is running in the background"

/-- The identifier of each enumerator as spelled in the header. -/
def identifier : DS5W_ReturnValue → String
  | OK => "OK"
  | E_UNKNOWN => "E_UNKNOWN"
  | E_INSUFFICIENT_BUFFER => "E_INSUFFICIENT_BUFFER"
  | E_EXTERNAL_WINAPI => "E_EXTERNAL_WINAPI"
  | E_STACK_OVERFLOW => "E_STACK_OVERFLOW"
  | E_INVALID_ARGS => "E_INVALID_ARGS"
  | E_CURRENTLY_NOT_SUPPORTED => "E_CURRENTLY_NOT_SUPPORTED"
  | E_DEVICE_REMOVED => "E_DEVICE_REMOVED"
  | E_BT_COM => "E_BT_COM"
  | E_IO_TIMEDOUT => "E_IO_TIMEDOUT"
  | E_IO_FAILED => "E_IO_FAILED"
  | E_IO_NOT_FOUND => "E_IO_NOT_FOUND"
  | E_IO_PENDING => "E_IO_PENDING"

end DS5W_ReturnValue

/-- All thirteen enumerators, in the order of the header. -/
def returnValues : List DS5W_ReturnValue :=
  [ .OK, .E_UNKNOWN, .E_INSUFFICIENT_BUFFER, .E_EXTERNAL_WINAPI,
    .E_STACK_OVERFLOW, .E_INVALID_ARGS, .E_CURRENTLY_NOT_SUPPORTED,
    .E_DEVICE_REMOVED, .E_BT_COM, .E_IO_TIMEDOUT, .E_IO_FAILED,
    .E_IO_NOT_FOUND, .E_IO_PENDING ]

/-- The twelve enumerators other than `OK`. -/
def errorValues : List DS5W_ReturnValue :=
  returnValues.tail

/-- The macro `DS5W_SUCCESS(expr)`: `((expr) == _DS5W_ReturnValue::OK)`. -/
def DS5W_SUCCESS (expr : DS5W_ReturnValue) : Bool :=
  expr == DS5W_ReturnValue.OK

/-- The macro `DS5W_FAILED(expr)`: `((expr) != _DS5W_ReturnValue::OK)`. -/
def DS5W_FAILED (expr : DS5W_ReturnValue) : Bool :=
  expr != DS5W_ReturnValue.OK

/-! The alias macros of lines 44-56. -/

def DS5W_OK : DS5W_ReturnValue := .OK
def DS5W_E_UNKNOWN : DS5W_ReturnValue := .E_UNKNOWN
def DS5W_E_INSUFFICIENT_BUFFER : DS5W_ReturnValue := .E_INSUFFICIENT_BUFFER
def DS5W_E_EXTERNAL_WINAPI : DS5W_ReturnValue := .E_EXTERNAL_WINAPI
def DS5W_E_STACK_OVERFLOW : DS5W_ReturnValue := .E_STACK_OVERFLOW
def DS5W_E_INVALID_ARGS : DS5W_ReturnValue := .E_INVALID_ARGS
def DS5W_E_CURRENTLY_NOT_SUPPORTED : DS5W_ReturnValue := .E_CURRENTLY_NOT_SUPPORTED
def DS5W_E_DEVICE_REMOVED : DS5W_ReturnValue := .E_DEVICE_REMOVED
def DS5W_E_BT_COM : DS5W_ReturnValue := .E_BT_COM
def DS5W_E_IO_TIMEDOUT : DS5W_ReturnValue := .E_IO_TIMEDOUT
def DS5W_E_IO_FAILED : DS5W_ReturnValue := .E_IO_FAILED
def DS5W_E_IO_NOT_FOUND : DS5W_ReturnValue := .E_IO_NOT_FOUND
def DS5W_E_IO_PENDING : DS5W_ReturnValue := .E_IO_PENDING

/-! ## Trigger effects (`ds5w.h` lines 454-584) -/

/-- The enumeration `_TriggerEffectType` (underlying type `unsigned char`),
with the enumerators spelled and ordered as in the header. -/
inductive TriggerEffectType
  | NoResitance
  | ContinuousResitance
  | SectionResitance
  | ReleaseAll
  | EffectEx
  | Calibrate
  deriving DecidableEq, Repr, Fintype

namespace TriggerEffectType

/-- The enumerator values written in the header. -/
def code : TriggerEffectType → Nat
  | NoResitance => 0x00
  | ContinuousResitance => 0x01
  | SectionResitance => 0x02
  | ReleaseAll => 0x05
  | EffectEx => 0x26
  | Calibrate => 0xFC

end TriggerEffectType

/-- The six tags in the order of the table of the specification
(NoResistance, ContinuousResistance, SectionResistance, EffectEx, ReleaseAll,
Calibrate). -/
def specTagTable : List TriggerEffectType :=
  [ .NoResitance, .ContinuousResitance, .SectionResitance, .EffectEx,
    .ReleaseAll, .Calibrate ]

/-! ### Byte layout of `_TriggerEffect`

Every member of the structure is an `unsigned char`, a `bool`, an
`unsigned char` array or the enumeration above (underlying type
`unsigned char`).  Each of these has size 1 and alignment 1 under the ABI the
header is written for (it uses `__declspec`, `HANDLE` and `OVERLAPPED`), so a
structure is laid out without padding holes: members follow one another and
the size is the sum of the member sizes; a union is as large as its largest
member. -/

/-- The scalar types of the members of `_TriggerEffect`. -/
inductive CScalar
  | unsignedChar
  | bool
  | triggerEffectType
  deriving DecidableEq, Repr

/-- Result of `sizeof` on a scalar type, in bytes. -/
def CScalar.sizeof : CScalar → Nat
  | .unsignedChar => 1
  | .bool => 1
  | .triggerEffectType => 1

/-- One member declaration `type name;` or `type name[count];`. -/
structure Member where
  name : String
  type : CScalar
  count : Nat
  deriving DecidableEq, Repr

/-- Size of a member in bytes. -/
def Member.sizeof (m : Member) : Nat :=
  m.type.sizeof * m.count

/-- Size of a structure whose members all have alignment 1. -/
def structSizeof (members : List Member) : Nat :=
  (members.map Member.sizeof).sum

/-- Size of a union of structures: the size of its largest alternative. -/
def unionSizeof (alternatives : List (List Member)) : Nat :=
  (alternatives.map structSizeof).foldr max 0

/-- Byte offsets, from the start of the structure, of the bytes owned by the
members that satisfy `p`; `start` is the offset of the first member. -/
def offsetsWhere (p : Member → Bool) : Nat → List Member → List Nat
  | _, [] => []
  | start, m :: rest =>
      (if p m then (List.range m.sizeof).map (fun i => start + i) else []) ++
        offsetsWhere p (start + m.sizeof) rest

/-- Whether a member is one of the `_pad` arrays marked `PAD / UNUSED`. -/
def Member.isPad (m : Member) : Bool :=
  m.name == "_pad"

/-- Offsets of the bytes of the `PAD / UNUSED` members of a structure. -/
def padOffsets (members : List Member) : List Nat :=
  offsetsWhere Member.isPad 0 members

/-- Offsets of the bytes of the members that carry a parameter. -/
def fieldOffsets (members : List Member) : List Nat :=
  offsetsWhere (fun m => !m.isPad) 0 members

namespace TriggerEffect

/-- The member `TriggerEffectType effectType;`. -/
def effectType : Member := ⟨"effectType", .triggerEffectType, 1⟩

/-- The union alternative `unsigned char _u1_raw[10];`. -/
def _u1_raw : List Member := [⟨"_u1_raw", .unsignedChar, 10⟩]

/-- The union alternative `Continuous` (for type == ContinuousResitance). -/
def Continuous : List Member :=
  [ ⟨"startPosition", .unsignedChar, 1⟩,
    ⟨"force", .unsignedChar, 1⟩,
    ⟨"_pad", .unsignedChar, 8⟩ ]

/-- The union alternative `Section` (for type == SectionResitance). -/
def Section : List Member :=
  [ ⟨"startPosition", .unsignedChar, 1⟩,
    ⟨"endPosition", .unsignedChar, 1⟩,
    ⟨"_pad", .unsignedChar, 8⟩ ]

/-- The union alternative `EffectEx` (for type == EffectEx). -/
def EffectEx : List Member :=
  [ ⟨"startPosition", .unsignedChar, 1⟩,
    ⟨"keepEffect", .bool, 1⟩,
    ⟨"beginForce", .unsignedChar, 1⟩,
    ⟨"middleForce", .unsignedChar, 1⟩,
    ⟨"endForce", .unsignedChar, 1⟩,
    ⟨"frequency", .unsignedChar, 1⟩,
    ⟨"_pad", .unsignedChar, 4⟩ ]

/-- The four alternatives of the anonymous union, in declaration order. -/
def payloadUnion : List (List Member) :=
  [_u1_raw, Continuous, Section, EffectEx]

/-- Size of the whole structure: the tag followed by the union. -/
def sizeof : Nat :=
  effectType.sizeof + unionSizeof payloadUnion

/-- The parameter structure the header assigns to a tag by its
`For type == ...` comments; the other three tags have none. -/
def payloadOf : TriggerEffectType → Option (List Member)
  | .ContinuousResitance => some Continuous
  | .SectionResitance => some Section
  | .EffectEx => some EffectEx
  | .NoResitance => none
  | .ReleaseAll => none
  | .Calibrate => none

/-- Offsets, within the ten bytes of `_u1_raw`, that carry no parameter of the
given tag: the bytes outside the parameter members of its structure, or
every byte when the tag has no structure. -/
def unusedBytes (tag : TriggerEffectType) : List Nat :=
  match payloadOf tag with
  | some members =>
      (List.range (structSizeof _u1_raw)).filter
        (fun i => !(fieldOffsets members).contains i)
  | none => List.range (structSizeof _u1_raw)

end TriggerEffect

/-! ## Error kinds of the specification (section 7) -/

/-- The ten error kinds the specification lists in its section 7, under the
names the specification gives them. -/
inductive ErrorKind
  | InvalidArgs
  | InsufficientBuffer
  | ExternalIoError
  | DeviceRemoved
  | IoTimeout
  | IoPending
  | IoNotFound
  | IntegrityError
  | InvalidCalibration
  | Unsupported
  deriving DecidableEq, Repr, Fintype

/-- The enumerator of `_DS5W_ReturnValue` that stands for an error kind,
read off the identifier and the summary the header gives each enumerator
(`summary` and `identifier` above); `none` where no enumerator of the header
is about the kind. -/
def ErrorKind.member : ErrorKind → Option DS5W_ReturnValue
  | .InvalidArgs => some .E_INVALID_ARGS
  | .InsufficientBuffer => some .E_INSUFFICIENT_BUFFER
  | .ExternalIoError => some .E_EXTERNAL_WINAPI
  | .DeviceRemoved => some .E_DEVICE_REMOVED
  | .IoTimeout => some .E_IO_TIMEDOUT
  | .IoPending => some .E_IO_PENDING
  | .IoNotFound => some .E_IO_NOT_FOUND
  | .IntegrityError => some .E_BT_COM
  | .InvalidCalibration => none
  | .Unsupported => some .E_CURRENTLY_NOT_SUPPORTED

/-- Whether the text `needle` occurs somewhere inside the text `hay`. -/
def containsText (needle hay : String) : Bool :=
  hay.data.tails.any (fun t => needle.data.isPrefixOf t)

/-- Whether an enumerator is about calibration, judged by its identifier
and its summary line. -/
def DS5W_ReturnValue.mentionsCalibration (m : DS5W_ReturnValue) : Bool :=
  containsText "CALIB" m.identifier || containsText "alibrat" m.summary

/-! ## Calibration data (`ds5w.h` lines 231-247) -/

/-- Range of the C type `short` (16 bits, signed). -/
def isShort (x : Int) : Prop :=
  -(2 ^ 15) ≤ x ∧ x < 2 ^ 15

/-- Range of the C type `int` (32 bits, signed). -/
def isInt32 (x : Int) : Prop :=
  -(2 ^ 31) ≤ x ∧ x < 2 ^ 31

instance (x : Int) : Decidable (isShort x) := by
  unfold isShort
  exact inferInstance

instance (x : Int) : Decidable (isInt32 x) := by
  unfold isInt32
  exact inferInstance

/-- The structure `_AxisCalibrationData`:
`short bias; int sens_numer; int sens_denom;`. -/
structure AxisCalibrationData where
  bias : Int
  sens_numer : Int
  sens_denom : Int
  deriving DecidableEq, Repr

/-- The members of an axis calibration are within the ranges of their C
types. -/
def AxisCalibrationData.inRange (a : AxisCalibrationData) : Prop :=
  isShort a.bias ∧ isInt32 a.sens_numer ∧ isInt32 a.sens_denom

instance (a : AxisCalibrationData) : Decidable a.inRange := by
  unfold AxisCalibrationData.inRange
  exact inferInstance

/-- The structure `_DeviceCalibrationData`:
`AxisCalibrationData accelerometer[3]; AxisCalibrationData gyroscope[3];`. -/
structure DeviceCalibrationData where
  accelerometer : Fin 3 → AxisCalibrationData
  gyroscope : Fin 3 → AxisCalibrationData

/-- The six axis triples of a device calibration. -/
def DeviceCalibrationData.axes (d : DeviceCalibrationData) :
    List AxisCalibrationData :=
  (List.finRange 3).map d.accelerometer ++ (List.finRange 3).map d.gyroscope

/-- Modelled from the spec: the calibration-load check of section 4.1; the
header declares the calibration structures only, the function that fills
them is not in it.  A payload in which some axis has a zero denominator is
rejected as `InvalidCalibration`; any other payload is kept as it is. -/
def loadCalibration (d : DeviceCalibrationData) :
    Except ErrorKind DeviceCalibrationData :=
  if d.axes.all (fun a => a.sens_denom != 0) then .ok d
  else .error .InvalidCalibration

/-- The value a 32-bit signed `int` holds when the integer `x` is stored in
it: `x` itself when it is in range, otherwise `x` reduced modulo `2 ^ 32`
into the range. -/
def toInt32 (x : Int) : Int :=
  (x + 2 ^ 31) % 2 ^ 32 - 2 ^ 31

/-- The exact quotient `(rawSample - bias) * sens_numer / sens_denom` over
the integers, rounded toward zero. -/
def exactQuotient (rawSample : Int) (axis : AxisCalibrationData) : Int :=
  Int.tdiv ((rawSample - axis.bias) * axis.sens_numer) axis.sens_denom

/-- Modelled from the spec: the function `apply` of section 4.1, which is
not in the header: `apply(rawSample: i16, axis) -> i32`, computed as
`(rawSample - bias) * gain_numerator / gain_denominator` in integer
arithmetic, the quotient rounded toward zero.  The result is an `i32` (the
header keeps calibrated axes in the `int` members of `_Vec3`), so the
quotient is stored through `toInt32`.  No division takes place when the
denominator is zero: the result is then `none`. -/
def applyCalibration (rawSample : Int) (axis : AxisCalibrationData) :
    Option Int :=
  if axis.sens_denom = 0 then none
  else some (toInt32 (exactQuotient rawSample axis))

/-! ## Session life cycle (`ds5w.h` lines 788-807)

The header gives the prototypes of `freeDeviceContext`, `shutdownDevice` and
`reconnectDevice` with their documentation; the bodies are modelled on
section 4.4 of the specification. -/

/-- Modelled from the spec: the states of a device context in section 4.4,
the two states of a session and the third, terminal state of a context that
was closed; the `_DeviceContext` of the header keeps a `bool connected`. -/
inductive SessionState
  | Connected
  | Disconnected
  | Closed
  deriving DecidableEq, Repr, Fintype

/-- Modelled from the spec: `freeDeviceContext` (`close` in section 4.4),
whose body is not in the header: all transport resources are released
unconditionally and the context enters the terminal state. -/
def freeDeviceContext (_s : SessionState) : SessionState :=
  .Closed

/-- Modelled from the spec: `shutdownDevice`, whose body is not in the
header: the device is stopped and disconnected, the context stays able to
reconnect.  A closed context is terminal and stays closed. -/
def shutdownDevice : SessionState → SessionState
  | .Connected => .Disconnected
  | .Disconnected => .Disconnected
  | .Closed => .Closed

/-- Modelled from the spec: `reconnectDevice` (`reconnect` in section 4.4),
whose body is not in the header.  It is valid only from `Disconnected`; from
any other state it is a contract violation, reported as `E_INVALID_ARGS`,
and the state is unchanged.  From `Disconnected` the transport is opened
again: `reopen` is the result of that attempt; on `OK` the context is
`Connected`, otherwise the error is returned and the context stays
`Disconnected`. -/
def reconnectDevice (reopen : DS5W_ReturnValue) :
    SessionState → DS5W_ReturnValue × SessionState
  | .Disconnected =>
      if reopen = .OK then (.OK, .Connected) else (reopen, .Disconnected)
  | .Connected => (.E_INVALID_ARGS, .Connected)
  | .Closed => (.E_INVALID_ARGS, .Closed)

/-- Modelled from the spec: the transport signals that the device is no
longer present (section 4.4, disconnect detection); a connected session
becomes `Disconnected`. -/
def deviceRemoved : SessionState → SessionState
  | .Connected => .Disconnected
  | .Disconnected => .Disconnected
  | .Closed => .Closed

/-- The events that change the state of a context. -/
inductive SessionOp
  | free
  | shutdown
  | reconnect (reopen : DS5W_ReturnValue)
  | removed
  deriving DecidableEq, Repr

/-- State of the context after one event. -/
def SessionOp.apply : SessionOp → SessionState → SessionState
  | .free, s => freeDeviceContext s
  | .shutdown, s => shutdownDevice s
  | .reconnect reopen, s => (reconnectDevice reopen s).2
  | .removed, s => deviceRemoved s

/-- State of the context after a sequence of events, the first event of the
list first. -/
def runOps : List SessionOp → SessionState → SessionState
  | [], s => s
  | op :: rest, s => runOps rest (op.apply s)

/-- A state is reachable when some sequence of events leads to it from the
state `Connected` in which a successful `initDeviceContext` leaves the
context. -/
def Reachable (s : SessionState) : Prop :=
  ∃ ops : List SessionOp, runOps ops .Connected = s

/-! ## The two declarations of `_DS5W_ReturnValue` (`ds5w.h` lines 61-127 and 169-225)

The header declares the enumeration twice.  Each declaration is kept here as
the list of its enumerators, identifier and written value, in source order,
so that the two can be compared name by name. -/

/-- The enumerators of the first declaration (lines 61-127). -/
def returnValueDeclaration1 : List (String × Nat) :=
  [ ("OK", 0),
    ("E_UNKNOWN", 1),
    ("E_INSUFFICIENT_BUFFER", 2),
    ("E_EXTERNAL_WINAPI", 3),
    ("E_STACK_OVERFLOW", 4),
    ("E_INVALID_ARGS", 5),
    ("E_CURRENTLY_NOT_SUPPORTED", 6),
    ("E_DEVICE_REMOVED", 7),
    ("E_BT_COM", 8),
    ("E_IO_TIMEDOUT", 9),
    ("E_IO_FAILED", 10),
    ("E_IO_NOT_FOUND", 11),
    ("E_IO_PENDING", 12) ]

/-- The enumerators of the second declaration (lines 169-225). -/
def returnValueDeclaration2 : List (String × Nat) :=
  [ ("OK", 0),
    ("E_UNKNOWN", 1),
    ("E_INSUFFICIENT_BUFFER", 2),
    ("E_EXTERNAL_WINAPI", 3),
    ("E_STACK_OVERFLOW", 4),
    ("E_INVALID_ARGS", 5),
    ("E_CURRENTLY_NOT_SUPPORTED", 6),
    ("E_DEVICE_REMOVED", 7),
    ("E_BT_COM", 8),
    ("E_IO_TIMEOUT", 9),
    ("E_IO_FAILED", 10) ]

/-- The value a declaration gives to the enumerator of the given name;
`none` when the declaration has no enumerator of that name. -/
def enumeratorCode (declaration : List (String × Nat)) (name : String) :
    Option Nat :=
  (declaration.find? (fun entry => entry.1.data == name.data)).map Prod.snd

/-- The names of the enumerators of a declaration. -/
def enumeratorNames (declaration : List (String × Nat)) : List String :=
  declaration.map Prod.fst

/-- The `#define` aliases of lines 44-56: the alias and the enumerator of
`_DS5W_ReturnValue` it expands to. -/
def aliasTable : List (String × String) :=
  [ ("DS5W_OK", "OK"),
    ("DS5W_E_UNKNOWN", "E_UNKNOWN"),
    ("DS5W_E_INSUFFICIENT_BUFFER", "E_INSUFFICIENT_BUFFER"),
    ("DS5W_E_EXTERNAL_WINAPI", "E_EXTERNAL_WINAPI"),
    ("DS5W_E_STACK_OVERFLOW", "E_STACK_OVERFLOW"),
    ("DS5W_E_INVALID_ARGS", "E_INVALID_ARGS"),
    ("DS5W_E_CURRENTLY_NOT_SUPPORTED", "E_CURRENTLY_NOT_SUPPORTED"),
    ("DS5W_E_DEVICE_REMOVED", "E_DEVICE_REMOVED"),
    ("DS5W_E_BT_COM", "E_BT_COM"),
    ("DS5W_E_IO_TIMEDOUT", "E_IO_TIMEDOUT"),
    ("DS5W_E_IO_FAILED", "E_IO_FAILED"),
    ("DS5W_E_IO_NOT_FOUND", "E_IO_NOT_FOUND"),
    ("DS5W_E_IO_PENDING", "E_IO_PENDING") ]

/-- What an alias resolves to under a declaration: the enumerator it expands
to together with the value of that enumerator, or `none` when the alias is
unknown or the declaration has no such enumerator. -/
def resolveAlias (declaration : List (String × Nat)) (aliasName : String) :
    Option (String × Nat) :=
  match aliasTable.find? (fun entry => entry.1.data == aliasName.data) with
  | none => none
  | some entry =>
      (enumeratorCode declaration entry.2).map (fun c => (entry.2, c))

/-- The names of the aliases, in source order. -/
def aliasNames : List String :=
  aliasTable.map Prod.fst

/-! ## Shared lemmas on OR-ed flag lists -/

theorem orAll_lt_two_pow (n : Nat) (flags : List Nat)
    (h : ∀ f ∈ flags, f < 2 ^ n) : orAll flags < 2 ^ n := by
  induction flags with
  | nil => exact Nat.two_pow_pos n
  | cons f rest ih =>
    have hf : f < 2 ^ n := h f (List.mem_cons_self f rest)
    have hr : orAll rest < 2 ^ n :=
      ih (fun g hg => h g (List.mem_cons_of_mem f hg))
    exact Nat.or_lt_two_pow hf hr

/-- A word below `2 ^ n` has no bit in common with a mask whose bits below
`n` are all clear. -/
theorem and_mask_eq_zero (n x mask : Nat) (hx : x < 2 ^ n)
    (hmask : ∀ i, i < n → mask.testBit i = false) : x &&& mask = 0 := by
  apply Nat.eq_of_testBit_eq
  intro i
  rw [Nat.testBit_and, Nat.zero_testBit]
  by_cases hi : i < n
  · rw [hmask i hi, Bool.and_false]
  · have hle : n ≤ i := Nat.le_of_not_lt hi
    have hbit : x.testBit i = false :=
      Nat.testBit_lt_two_pow
        (Nat.lt_of_lt_of_le hx (Nat.pow_le_pow_right (by decide) hle))
    rw [hbit, Bool.false_and]

theorem buttonFlags_lt : ∀ f ∈ buttonFlags, f < 2 ^ 19 := by
  decide

theorem playerLedFlags_lt : ∀ f ∈ playerLedFlags, f < 2 ^ 5 := by
  decide

theorem buttonMap_eq_orAll (flags : List Nat)
    (h : ∀ f ∈ flags, f ∈ buttonFlags) : buttonMap flags = orAll flags := by
  have hlt : orAll flags < 2 ^ 19 :=
    orAll_lt_two_pow 19 flags (fun f hf => buttonFlags_lt f (h f hf))
  unfold buttonMap
  exact Nat.mod_eq_of_lt (by omega)

theorem or_eq_zero_iff (a b : Nat) : a ||| b = 0 ↔ a = 0 ∧ b = 0 := by
  constructor
  · intro h
    have hbits : ∀ i, a.testBit i = false ∧ b.testBit i = false := by
      intro i
      have hi : (a ||| b).testBit i = false := by
        rw [h, Nat.zero_testBit]
      rw [Nat.testBit_or, Bool.or_eq_false_iff] at hi
      exact hi
    constructor
    · apply Nat.eq_of_testBit_eq
      intro i
      rw [(hbits i).1, Nat.zero_testBit]
    · apply Nat.eq_of_testBit_eq
      intro i
      rw [(hbits i).2, Nat.zero_testBit]
  · rintro ⟨ha, hb⟩
    rw [ha, hb]
    rfl

theorem orAll_eq_zero_iff (flags : List Nat) :
    orAll flags = 0 ↔ ∀ x ∈ flags, x = 0 := by
  induction flags with
  | nil => simp [orAll]
  | cons f rest ih =>
    have hcons : orAll (f :: rest) = f ||| orAll rest := rfl
    rw [hcons, or_eq_zero_iff, ih]
    simp

theorem orAll_and (flags : List Nat) (f : Nat) :
    orAll flags &&& f = orAll (flags.map (fun g => g &&& f)) := by
  induction flags with
  | nil => exact Nat.zero_and f
  | cons g rest ih =>
    have hcons : orAll (g :: rest) = g ||| orAll rest := rfl
    have hmap : orAll ((g :: rest).map (fun g => g &&& f))
        = (g &&& f) ||| orAll (rest.map (fun g => g &&& f)) := rfl
    rw [hcons, hmap, Nat.and_distrib_right, ih]

/-- Two button flags have a bit in common only when they are the same flag. -/
theorem buttonFlags_disjoint :
    ∀ g ∈ buttonFlags, ∀ f ∈ buttonFlags, (g &&& f = 0 ↔ g ≠ f) := by
  decide

/-- Testing a button map against one flag tells whether the flag was OR-ed
into it. -/
theorem buttonMap_and_ne_zero_iff (flags : List Nat) (f : Nat)
    (h : ∀ g ∈ flags, g ∈ buttonFlags) (hf : f ∈ buttonFlags) :
    buttonMap flags &&& f ≠ 0 ↔ f ∈ flags := by
  rw [buttonMap_eq_orAll flags h, orAll_and, Ne, orAll_eq_zero_iff]
  constructor
  · intro hne
    by_contra hnot
    apply hne
    intro x hx
    obtain ⟨g, hg, hgx⟩ := List.mem_map.mp hx
    rw [← hgx]
    apply (buttonFlags_disjoint g (h g hg) f hf).mpr
    intro hgf
    exact hnot (hgf ▸ hg)
  · intro hmem hall
    have hzero : f &&& f = 0 := hall (f &&& f) (List.mem_map.mpr ⟨f, hmem, rfl⟩)
    exact (buttonFlags_disjoint f hf f hf).mp hzero rfl

/-! ## Shared lemmas on truncated division -/

theorem neg_tmod_eq (a b : Int) : (-a).tmod b = -(a.tmod b) := by
  rw [Int.tmod_def, Int.tmod_def, Int.neg_tdiv]
  ring

theorem tmod_lt_abs (a d : Int) (hd : d ≠ 0) : a.tmod d < |d| := by
  rcases le_or_lt 0 d with h | h
  · rw [abs_of_nonneg h]
    exact Int.tmod_lt_of_pos a (lt_of_le_of_ne h (Ne.symm hd))
  · have hneg := Int.tmod_lt_of_pos a (show 0 < -d by omega)
    rw [Int.tmod_neg] at hneg
    rw [abs_of_neg h]
    exact hneg

/-- The remainder left by a truncated division has the sign of the dividend
and is smaller in magnitude than the divisor. -/
theorem tdiv_remainder (p d : Int) (hd : d ≠ 0) :
    (0 ≤ p → 0 ≤ p - p.tdiv d * d ∧ p - p.tdiv d * d < |d|) ∧
    (p ≤ 0 → -|d| < p - p.tdiv d * d ∧ p - p.tdiv d * d ≤ 0) := by
  have hrem : p - p.tdiv d * d = p.tmod d := by
    rw [Int.tmod_def]
    ring
  rw [hrem]
  constructor
  · intro hp
    exact ⟨Int.tmod_nonneg d hp, tmod_lt_abs p d hd⟩
  · intro hp
    have h1 : 0 ≤ (-p).tmod d := Int.tmod_nonneg d (by omega)
    have h2 : (-p).tmod d < |d| := tmod_lt_abs (-p) d hd
    rw [neg_tmod_eq] at h1 h2
    constructor <;> omega

/-- Only the truncated quotient leaves such a remainder. -/
theorem tdiv_unique (p d q : Int) (hd : d ≠ 0)
    (h1 : 0 ≤ p → 0 ≤ p - q * d ∧ p - q * d < |d|)
    (h2 : p ≤ 0 → -|d| < p - q * d ∧ p - q * d ≤ 0) : q = p.tdiv d := by
  have hq := tdiv_remainder p d hd
  have habs : 0 < |d| := abs_pos.mpr hd
  have key : |(q - p.tdiv d) * d| < |d| := by
    rw [abs_lt]
    rcases le_total 0 p with hp | hp
    · have a := h1 hp
      have b := hq.1 hp
      constructor <;> nlinarith
    · have a := h2 hp
      have b := hq.2 hp
      constructor <;> nlinarith
  rw [abs_mul] at key
  have hone : |q - p.tdiv d| < 1 := by
    by_contra hge
    push_neg at hge
    nlinarith
  have hlt := abs_lt.mp hone
  omega

/-! ## Shared lemmas on 32-bit storage and on the calibration payload -/

theorem toInt32_isInt32 (x : Int) : isInt32 (toInt32 x) := by
  unfold isInt32 toInt32
  constructor <;> omega

theorem toInt32_eq_self (x : Int) (h : isInt32 x) : toInt32 x = x := by
  unfold isInt32 at h
  unfold toInt32
  omega

theorem accelerometer_mem_axes (d : DeviceCalibrationData) (i : Fin 3) :
    d.accelerometer i ∈ d.axes := by
  unfold DeviceCalibrationData.axes
  exact List.mem_append_left _ (List.mem_map.mpr ⟨i, List.mem_finRange i, rfl⟩)

theorem gyroscope_mem_axes (d : DeviceCalibrationData) (i : Fin 3) :
    d.gyroscope i ∈ d.axes := by
  unfold DeviceCalibrationData.axes
  exact List.mem_append_right _ (List.mem_map.mpr ⟨i, List.mem_finRange i, rfl⟩)

theorem mem_axes_iff (d : DeviceCalibrationData) (a : AxisCalibrationData) :
    a ∈ d.axes ↔ ∃ i : Fin 3, a = d.accelerometer i ∨ a = d.gyroscope i := by
  unfold DeviceCalibrationData.axes
  rw [List.mem_append, List.mem_map, List.mem_map]
  constructor
  · rintro (⟨i, _, hi⟩ | ⟨i, _, hi⟩)
    · exact ⟨i, Or.inl hi.symm⟩
    · exact ⟨i, Or.inr hi.symm⟩
  · rintro ⟨i, hi | hi⟩
    · exact Or.inl ⟨i, List.mem_finRange i, hi.symm⟩
    · exact Or.inr ⟨i, List.mem_finRange i, hi.symm⟩

/-- Loading keeps a payload exactly when none of its six denominators is
zero. -/
theorem loadCalibration_ok_iff (d d2 : DeviceCalibrationData) :
    loadCalibration d = .ok d2 ↔
      d2 = d ∧ ∀ i : Fin 3,
        (d.accelerometer i).sens_denom ≠ 0 ∧ (d.gyroscope i).sens_denom ≠ 0 := by
  unfold loadCalibration
  constructor
  · intro hload
    split at hload
    · rename_i hall
      have hdd : d = d2 := by
        injection hload
      refine ⟨hdd.symm, fun i => ⟨?_, ?_⟩⟩
      · have := List.all_eq_true.mp hall _ (accelerometer_mem_axes d i)
        simpa using this
      · have := List.all_eq_true.mp hall _ (gyroscope_mem_axes d i)
        simpa using this
    · cases hload
  · rintro ⟨hdd, hall⟩
    rw [if_pos, hdd]
    apply List.all_eq_true.mpr
    intro a ha
    obtain ⟨i, hi | hi⟩ := (mem_axes_iff d a).mp ha
    · rw [hi]
      simpa using (hall i).1
    · rw [hi]
      simpa using (hall i).2

theorem loadCalibration_error_iff (d : DeviceCalibrationData) :
    loadCalibration d = .error .InvalidCalibration ↔
      ∃ i : Fin 3,
        (d.accelerometer i).sens_denom = 0 ∨ (d.gyroscope i).sens_denom = 0 := by
  constructor
  · intro herr
    by_contra hnone
    push_neg at hnone
    have hok := (loadCalibration_ok_iff d d).mpr ⟨rfl, hnone⟩
    rw [hok] at herr
    cases herr
  · rintro ⟨i, hi⟩
    unfold loadCalibration
    rw [if_neg]
    intro hall
    rcases hi with hi | hi
    · have := List.all_eq_true.mp hall _ (accelerometer_mem_axes d i)
      simp [hi] at this
    · have := List.all_eq_true.mp hall _ (gyroscope_mem_axes d i)
      simp [hi] at this

/-! ## Shared lemmas on the session life cycle -/

theorem runOps_closed (ops : List SessionOp) : runOps ops .Closed = .Closed := by
  induction ops with
  | nil => rfl
  | cons op rest ih =>
    cases op <;> exact ih

theorem reachable_all (s : SessionState) : Reachable s := by
  cases s
  · exact ⟨[], rfl⟩
  · exact ⟨[.shutdown], rfl⟩
  · exact ⟨[.free], rfl⟩

/-! ## Claims C1-C4: flag constants -/

/-- C1: each of the nineteen button flag constants has the value the
specification assigns to the corresponding button. -/
theorem button_flag_values :
    DS5W_ISTATE_BTN_DPAD_LEFT = 0x01 ∧ DS5W_ISTATE_BTN_DPAD_DOWN = 0x02 ∧
    DS5W_ISTATE_BTN_DPAD_RIGHT = 0x04 ∧ DS5W_ISTATE_BTN_DPAD_UP = 0x08 ∧
    DS5W_ISTATE_BTN_SQUARE = 0x10 ∧ DS5W_ISTATE_BTN_CROSS = 0x20 ∧
    DS5W_ISTATE_BTN_CIRCLE = 0x40 ∧ DS5W_ISTATE_BTN_TRIANGLE = 0x80 ∧
    DS5W_ISTATE_BTN_BUMPER_LEFT = 0x100 ∧ DS5W_ISTATE_BTN_BUMPER_RIGHT = 0x200 ∧
    DS5W_ISTATE_BTN_TRIGGER_LEFT = 0x400 ∧ DS5W_ISTATE_BTN_TRIGGER_RIGHT = 0x800 ∧
    DS5W_ISTATE_BTN_SELECT = 0x1000 ∧ DS5W_ISTATE_BTN_MENU = 0x2000 ∧
    DS5W_ISTATE_BTN_STICK_LEFT = 0x4000 ∧ DS5W_ISTATE_BTN_STICK_RIGHT = 0x8000 ∧
    DS5W_ISTATE_BTN_PLAYSTATION_LOGO = 0x10000 ∧
    DS5W_ISTATE_BTN_PAD_BUTTON = 0x20000 ∧
    DS5W_ISTATE_BTN_MIC_BUTTON = 0x40000 ∧
    buttonFlags.length = 19 := by
  decide

/-- C2: whatever flags among the nineteen button constants are OR-ed into the
32-bit `buttonMap`, bits 19..31 of the result are zero (the map is below
`2 ^ 19`, its shift by 19 is zero and it has no bit in common with
`0xFFF80000`); and the OR of all nineteen constants is `0x0007FFFF`. -/
theorem buttonMap_top_bits_zero (flags : List Nat)
    (h : ∀ f ∈ flags, f ∈ buttonFlags) :
    buttonMap flags < 2 ^ 19 ∧
    buttonMap flags >>> 19 = 0 ∧
    (∀ i, 19 ≤ i → (buttonMap flags).testBit i = false) ∧
    buttonMap flags &&& 0xFFF80000 = 0 ∧
    buttonMap buttonFlags = 0x0007FFFF := by
  have hlt : orAll flags < 2 ^ 19 :=
    orAll_lt_two_pow 19 flags (fun f hf => buttonFlags_lt f (h f hf))
  have hmap : buttonMap flags = orAll flags := by
    unfold buttonMap
    exact Nat.mod_eq_of_lt (by omega)
  have hbits : ∀ i, 19 ≤ i → (buttonMap flags).testBit i = false := by
    intro i hi
    rw [hmap]
    apply Nat.testBit_lt_two_pow
    exact Nat.lt_of_lt_of_le hlt (Nat.pow_le_pow_right (by decide) hi)
  refine ⟨by omega, ?_, hbits, ?_, by decide⟩
  · rw [hmap, Nat.shiftRight_eq_div_pow]
    exact Nat.div_eq_of_lt hlt
  · rw [hmap]
    apply and_mask_eq_zero 19 _ _ hlt
    intro i hi
    interval_cases i <;> decide

/-- Witness for C2: the flags CROSS, MIC_BUTTON and DPAD_UP. -/
theorem buttonMap_top_bits_zero_witness :
    buttonMap [DS5W_ISTATE_BTN_CROSS, DS5W_ISTATE_BTN_MIC_BUTTON,
      DS5W_ISTATE_BTN_DPAD_UP] = 0x40028 ∧
    buttonMap [DS5W_ISTATE_BTN_CROSS, DS5W_ISTATE_BTN_MIC_BUTTON,
      DS5W_ISTATE_BTN_DPAD_UP] >>> 19 = 0 :=
  ⟨by decide,
   (buttonMap_top_bits_zero
      [DS5W_ISTATE_BTN_CROSS, DS5W_ISTATE_BTN_MIC_BUTTON, DS5W_ISTATE_BTN_DPAD_UP]
      (by decide)).2.1⟩

/-- C3: the button mask in which exactly CROSS and the left bumper are set is
`0x20 | 0x100 = 0x120`. -/
theorem cross_bumper_left_mask :
    DS5W_ISTATE_BTN_CROSS ||| DS5W_ISTATE_BTN_BUMPER_LEFT = 0x120 ∧
    (0x20 ||| 0x100 : Nat) = 0x120 ∧
    buttonMap [DS5W_ISTATE_BTN_CROSS, DS5W_ISTATE_BTN_BUMPER_LEFT] = 0x120 := by
  decide

/-- C4: the five player-LED constants have the values of the specification,
and every combination of them fits in the low five bits of the 8-bit
`PlayerLeds::bitmask`: storing it in the byte loses nothing, the result is
below `2 ^ 5` and has no bit in common with `0xE0`; the OR of all five is
`0x1F`. -/
theorem playerLed_values_and_mask (flags : List Nat)
    (h : ∀ f ∈ flags, f ∈ playerLedFlags) :
    DS5W_OSTATE_PLAYER_LED_LEFT = 0x01 ∧
    DS5W_OSTATE_PLAYER_LED_MIDDLE_LEFT = 0x02 ∧
    DS5W_OSTATE_PLAYER_LED_MIDDLE = 0x04 ∧
    DS5W_OSTATE_PLAYER_LED_MIDDLE_RIGHT = 0x08 ∧
    DS5W_OSTATE_PLAYER_LED_RIGHT = 0x10 ∧
    playerLedBitmask flags = orAll flags ∧
    playerLedBitmask flags < 2 ^ 5 ∧
    playerLedBitmask flags &&& 0xE0 = 0 ∧
    playerLedBitmask playerLedFlags = 0x1F := by
  have hlt : orAll flags < 2 ^ 5 :=
    orAll_lt_two_pow 5 flags (fun f hf => playerLedFlags_lt f (h f hf))
  have hmap : playerLedBitmask flags = orAll flags := by
    unfold playerLedBitmask
    exact Nat.mod_eq_of_lt (by omega)
  refine ⟨rfl, rfl, rfl, rfl, rfl, hmap, by omega, ?_, by decide⟩
  rw [hmap]
  apply and_mask_eq_zero 5 _ _ hlt
  intro i hi
  interval_cases i <;> decide

/-- Witness for C4: the left and the right LED together. -/
theorem playerLed_values_and_mask_witness :
    playerLedBitmask [DS5W_OSTATE_PLAYER_LED_LEFT, DS5W_OSTATE_PLAYER_LED_RIGHT] = 0x11 ∧
    playerLedBitmask [DS5W_OSTATE_PLAYER_LED_LEFT, DS5W_OSTATE_PLAYER_LED_RIGHT] < 2 ^ 5 :=
  ⟨by decide,
   (playerLed_values_and_mask
      [DS5W_OSTATE_PLAYER_LED_LEFT, DS5W_OSTATE_PLAYER_LED_RIGHT]
      (by decide)).2.2.2.2.2.2.1⟩

/-! ## Claims C5-C6: trigger effects -/

/-- C5: `TriggerEffectType` has exactly the six tags of the table of the
specification, and their one-byte codes, in the order of that table, are
`0x00, 0x01, 0x02, 0x26, 0x05, 0xFC`: pairwise distinct, so the map from tag
to byte is injective and some decoder recovers every tag from its byte. -/
theorem triggerEffectType_codes_injective :
    Fintype.card TriggerEffectType = 6 ∧
    specTagTable.length = 6 ∧ specTagTable.Nodup ∧
    (∀ t : TriggerEffectType, t ∈ specTagTable) ∧
    specTagTable.map TriggerEffectType.code = [0x00, 0x01, 0x02, 0x26, 0x05, 0xFC] ∧
    (specTagTable.map TriggerEffectType.code).Nodup ∧
    (∀ t : TriggerEffectType, t.code < 2 ^ 8) ∧
    Function.Injective TriggerEffectType.code ∧
    ∃ decode : Nat → Option TriggerEffectType,
      ∀ t : TriggerEffectType, decode t.code = some t := by
  refine ⟨by decide, by decide, by decide, by decide, by decide, by decide,
    by decide, by decide, ?_⟩
  refine ⟨fun b => specTagTable.find? (fun t => t.code == b), ?_⟩
  decide

/-- C6: the three parameter structures `Continuous` (2 members and 8 pad
bytes), `Section` (2 and 8) and `EffectEx` (6 and 4) each occupy 10 bytes,
the size of `_u1_raw`, so the union is 10 bytes and tag plus payload is a
block of 11 bytes; the bytes a tag does not use are the trailing pad bytes of
its structure (offsets 2..9, 2..9 and 6..9), and all ten bytes for the three
tags without parameters. -/
theorem triggerEffect_layout :
    structSizeof TriggerEffect._u1_raw = 10 ∧
    structSizeof TriggerEffect.Continuous = 10 ∧
    structSizeof TriggerEffect.Section = 10 ∧
    structSizeof TriggerEffect.EffectEx = 10 ∧
    unionSizeof TriggerEffect.payloadUnion = 10 ∧
    TriggerEffect.sizeof = 11 ∧
    fieldOffsets TriggerEffect.Continuous = [0, 1] ∧
    fieldOffsets TriggerEffect.Section = [0, 1] ∧
    fieldOffsets TriggerEffect.EffectEx = [0, 1, 2, 3, 4, 5] ∧
    padOffsets TriggerEffect.Continuous = [2, 3, 4, 5, 6, 7, 8, 9] ∧
    padOffsets TriggerEffect.Section = [2, 3, 4, 5, 6, 7, 8, 9] ∧
    padOffsets TriggerEffect.EffectEx = [6, 7, 8, 9] ∧
    TriggerEffect.unusedBytes .ContinuousResitance = padOffsets TriggerEffect.Continuous ∧
    TriggerEffect.unusedBytes .SectionResitance = padOffsets TriggerEffect.Section ∧
    TriggerEffect.unusedBytes .EffectEx = padOffsets TriggerEffect.EffectEx ∧
    TriggerEffect.unusedBytes .NoResitance = [0, 1, 2, 3, 4, 5, 6, 7, 8, 9] ∧
    TriggerEffect.unusedBytes .ReleaseAll = [0, 1, 2, 3, 4, 5, 6, 7, 8, 9] ∧
    TriggerEffect.unusedBytes .Calibrate = [0, 1, 2, 3, 4, 5, 6, 7, 8, 9] := by
  decide

/-! ## Claims C7-C8: return values -/

/-- C7: for every return value `r`, exactly one of `DS5W_SUCCESS(r)` and
`DS5W_FAILED(r)` holds; `DS5W_SUCCESS(r)` holds exactly when `r` is `OK`,
the member with code 0; `DS5W_FAILED(r)` is its negation; and each of the
twelve error members is classified as a failure. -/
theorem success_failed_exclusive (r : DS5W_ReturnValue) :
    (DS5W_SUCCESS r = true ∨ DS5W_FAILED r = true) ∧
    ¬ (DS5W_SUCCESS r = true ∧ DS5W_FAILED r = true) ∧
    (DS5W_SUCCESS r = true ↔ r = .OK) ∧
    (DS5W_SUCCESS r = true ↔ r.code = 0) ∧
    DS5W_FAILED r = !DS5W_SUCCESS r ∧
    errorValues.length = 12 ∧
    (∀ e : DS5W_ReturnValue, e ∈ errorValues ↔ e ≠ .OK) ∧
    (∀ e : DS5W_ReturnValue, e ∈ errorValues →
      DS5W_FAILED e = true ∧ DS5W_SUCCESS e = false) := by
  revert r
  decide

/-- C8, as the claim states it, fails: the kind `InvalidCalibration` of
section 7 has no member of its own in `DS5W_ReturnValue`; none of the
thirteen enumerators is about calibration, by identifier or by summary. -/
theorem invalidCalibration_without_member :
    ErrorKind.member .InvalidCalibration = none ∧
    (∀ m : DS5W_ReturnValue, m.mentionsCalibration = false) ∧
    ¬ (∀ k : ErrorKind, ∃ m : DS5W_ReturnValue, k.member = some m) := by
  refine ⟨rfl, by decide, ?_⟩
  intro hall
  obtain ⟨m, hm⟩ := hall .InvalidCalibration
  cases hm

/-- C8, amended: the enumeration is closed (thirteen members: `OK` and twelve
errors) with pairwise distinct codes, every error code different from the
code of `OK`; nine of the ten kinds of section 7 have a member of their own,
an error member, no member serving two kinds; `InvalidCalibration` has
none. -/
theorem error_taxonomy_members :
    Fintype.card DS5W_ReturnValue = 13 ∧
    (∀ m : DS5W_ReturnValue, m ∈ returnValues) ∧
    Function.Injective DS5W_ReturnValue.code ∧
    (returnValues.map DS5W_ReturnValue.code).Nodup ∧
    (∀ m : DS5W_ReturnValue, m = .OK ∨ m.code ≠ DS5W_ReturnValue.OK.code) ∧
    ErrorKind.member .InvalidArgs = some DS5W_E_INVALID_ARGS ∧
    ErrorKind.member .InsufficientBuffer = some DS5W_E_INSUFFICIENT_BUFFER ∧
    ErrorKind.member .ExternalIoError = some DS5W_E_EXTERNAL_WINAPI ∧
    ErrorKind.member .DeviceRemoved = some DS5W_E_DEVICE_REMOVED ∧
    ErrorKind.member .IoTimeout = some DS5W_E_IO_TIMEDOUT ∧
    ErrorKind.member .IoPending = some DS5W_E_IO_PENDING ∧
    ErrorKind.member .IoNotFound = some DS5W_E_IO_NOT_FOUND ∧
    ErrorKind.member .IntegrityError = some DS5W_E_BT_COM ∧
    ErrorKind.member .Unsupported = some DS5W_E_CURRENTLY_NOT_SUPPORTED ∧
    ErrorKind.member .InvalidCalibration = none ∧
    (∀ k : ErrorKind, k.member ≠ some .OK) ∧
    (∀ k1 k2 : ErrorKind, k1 = k2 ∨ k1.member ≠ k2.member) := by
  refine ⟨by decide, by decide, by decide, by decide, by decide, rfl, rfl, rfl,
    rfl, rfl, rfl, rfl, rfl, rfl, rfl, by decide, by decide⟩

/-! ## Claim C9: calibration -/

/-- C9, as the claim states it, fails: for the raw sample 32767 and the axis
`bias = -32768, sens_numer = 2147483647, sens_denom = 1`, all within the
ranges of their C types, the quotient `(rawSample - bias) * sens_numer /
sens_denom` is 140735340806145, which no `i32` holds; the calibrated value,
an `i32`, is another number. -/
theorem applyCalibration_exceeds_int32 :
    isShort 32767 ∧
    AxisCalibrationData.inRange ⟨-32768, 2147483647, 1⟩ ∧
    exactQuotient 32767 ⟨-32768, 2147483647, 1⟩ = 140735340806145 ∧
    ¬ isInt32 (exactQuotient 32767 ⟨-32768, 2147483647, 1⟩) ∧
    applyCalibration 32767 ⟨-32768, 2147483647, 1⟩ = some 2147418113 ∧
    applyCalibration 32767 ⟨-32768, 2147483647, 1⟩
      ≠ some (Int.tdiv ((32767 - (-32768)) * 2147483647) 1) ∧
    ¬ (∀ (rawSample : Int) (axis : AxisCalibrationData),
        isShort rawSample → axis.inRange → axis.sens_denom ≠ 0 →
        applyCalibration rawSample axis =
          some (Int.tdiv ((rawSample - axis.bias) * axis.sens_numer)
            axis.sens_denom)) := by
  refine ⟨by decide, by decide, by decide, by decide, by decide, by decide, ?_⟩
  intro hall
  have hbad := hall 32767 ⟨-32768, 2147483647, 1⟩ (by decide) (by decide)
    (by decide)
  revert hbad
  decide

/-- C9, amended: for a raw 16-bit sample and an axis calibration within the
ranges of its C types, when `sens_denom` is not zero the calibrated value is
an `i32`, and whenever the quotient `(rawSample - bias) * sens_numer /
sens_denom` truncated toward zero is representable as an `i32` the
calibrated value is that quotient: the remainder it leaves has the sign of
the product and is smaller in magnitude than the denominator, and no other
integer does so.  The calibrated value differs from the quotient exactly
when the quotient is out of the `i32` range.  When `sens_denom` is zero
nothing is divided; loading keeps a payload exactly when none of its six
denominators is zero and rejects it as `InvalidCalibration` otherwise. -/
theorem applyCalibration_truncates (rawSample : Int) (axis : AxisCalibrationData)
    (hraw : isShort rawSample) (haxis : axis.inRange) :
    (axis.sens_denom ≠ 0 →
      ∃ r : Int, applyCalibration rawSample axis = some r ∧
        isInt32 r ∧
        exactQuotient rawSample axis
          = Int.tdiv ((rawSample - axis.bias) * axis.sens_numer) axis.sens_denom ∧
        |exactQuotient rawSample axis| < 2 ^ 47 ∧
        (r = exactQuotient rawSample axis ↔ isInt32 (exactQuotient rawSample axis)) ∧
        (isInt32 (exactQuotient rawSample axis) →
          r = Int.tdiv ((rawSample - axis.bias) * axis.sens_numer) axis.sens_denom ∧
          (0 ≤ (rawSample - axis.bias) * axis.sens_numer →
            0 ≤ (rawSample - axis.bias) * axis.sens_numer - r * axis.sens_denom ∧
            (rawSample - axis.bias) * axis.sens_numer - r * axis.sens_denom
              < |axis.sens_denom|) ∧
          ((rawSample - axis.bias) * axis.sens_numer ≤ 0 →
            -|axis.sens_denom|
              < (rawSample - axis.bias) * axis.sens_numer - r * axis.sens_denom ∧
            (rawSample - axis.bias) * axis.sens_numer - r * axis.sens_denom ≤ 0) ∧
          (∀ q2 : Int,
            (0 ≤ (rawSample - axis.bias) * axis.sens_numer →
              0 ≤ (rawSample - axis.bias) * axis.sens_numer - q2 * axis.sens_denom ∧
              (rawSample - axis.bias) * axis.sens_numer - q2 * axis.sens_denom
                < |axis.sens_denom|) →
            ((rawSample - axis.bias) * axis.sens_numer ≤ 0 →
              -|axis.sens_denom|
                < (rawSample - axis.bias) * axis.sens_numer - q2 * axis.sens_denom ∧
              (rawSample - axis.bias) * axis.sens_numer - q2 * axis.sens_denom ≤ 0) →
            q2 = r))) ∧
    (axis.sens_denom = 0 → applyCalibration rawSample axis = none) ∧
    (∀ d d2 : DeviceCalibrationData, loadCalibration d = .ok d2 →
      d2 = d ∧ ∀ i : Fin 3,
        (d2.accelerometer i).sens_denom ≠ 0 ∧
        (d2.gyroscope i).sens_denom ≠ 0 ∧
        applyCalibration rawSample (d2.accelerometer i)
          = some (toInt32 (exactQuotient rawSample (d2.accelerometer i))) ∧
        applyCalibration rawSample (d2.gyroscope i)
          = some (toInt32 (exactQuotient rawSample (d2.gyroscope i)))) ∧
    (∀ d : DeviceCalibrationData,
      (∀ i : Fin 3,
        (d.accelerometer i).sens_denom ≠ 0 ∧ (d.gyroscope i).sens_denom ≠ 0) →
      loadCalibration d = .ok d) ∧
    (∀ d : DeviceCalibrationData,
      (∃ i : Fin 3,
        (d.accelerometer i).sens_denom = 0 ∨ (d.gyroscope i).sens_denom = 0) →
      loadCalibration d = .error .InvalidCalibration) := by
  refine ⟨?_, ?_, ?_, ?_, ?_⟩
  · intro hd
    have hrem := tdiv_remainder ((rawSample - axis.bias) * axis.sens_numer)
      axis.sens_denom hd
    have hqle : |exactQuotient rawSample axis|
        ≤ |(rawSample - axis.bias) * axis.sens_numer| := by
      unfold exactQuotient
      rw [Int.abs_eq_natAbs, Int.abs_eq_natAbs, Int.natAbs_tdiv]
      exact Int.ofNat_le.mpr (Nat.div_le_self _ _)
    have hplt : |(rawSample - axis.bias) * axis.sens_numer| < 2 ^ 47 := by
      obtain ⟨hb1, hb2⟩ := haxis.1
      obtain ⟨hn1, hn2⟩ := haxis.2.1
      obtain ⟨hr1, hr2⟩ := hraw
      rw [abs_mul]
      have hx : |rawSample - axis.bias| ≤ 2 ^ 16 - 1 := by
        rw [abs_le]
        constructor <;> omega
      have hy : |axis.sens_numer| ≤ 2 ^ 31 := by
        rw [abs_le]
        constructor <;> omega
      have hy0 : 0 ≤ |axis.sens_numer| := abs_nonneg _
      have hmul : |rawSample - axis.bias| * |axis.sens_numer|
          ≤ (2 ^ 16 - 1) * 2 ^ 31 :=
        mul_le_mul hx hy hy0 (by norm_num)
      exact lt_of_le_of_lt hmul (by norm_num)
    refine ⟨toInt32 (exactQuotient rawSample axis), ?_, toInt32_isInt32 _, rfl,
      lt_of_le_of_lt hqle hplt, ?_, ?_⟩
    · unfold applyCalibration
      rw [if_neg hd]
    · constructor
      · intro heq
        rw [← heq]
        exact toInt32_isInt32 _
      · intro hfit
        exact toInt32_eq_self _ hfit
    · intro hfit
      rw [toInt32_eq_self _ hfit]
      refine ⟨rfl, hrem.1, hrem.2, ?_⟩
      intro q2 h1 h2
      exact tdiv_unique _ _ q2 hd h1 h2
  · intro hd
    unfold applyCalibration
    rw [if_pos hd]
  · intro d d2 hload
    obtain ⟨hdd, hall⟩ := (loadCalibration_ok_iff d d2).mp hload
    refine ⟨hdd, fun i => ?_⟩
    rw [hdd]
    refine ⟨(hall i).1, (hall i).2, ?_, ?_⟩
    · unfold applyCalibration
      rw [if_neg (hall i).1]
    · unfold applyCalibration
      rw [if_neg (hall i).2]
  · intro d hall
    exact (loadCalibration_ok_iff d d).mpr ⟨rfl, hall⟩
  · intro d hex
    exact (loadCalibration_error_iff d).mpr hex

/-- Witness for C9: raw sample -7 against bias 3 and gain 5 / 4 gives
`(-10 * 5) / 4 = -12`, not the floor `-13`; a payload of six such axes is
kept by the load, and one with a zero denominator on a gyroscope axis is
rejected. -/
theorem applyCalibration_truncates_witness :
    isShort (-7) ∧ AxisCalibrationData.inRange ⟨3, 5, 4⟩ ∧
    isInt32 (exactQuotient (-7) ⟨3, 5, 4⟩) ∧
    applyCalibration (-7) ⟨3, 5, 4⟩ = some (-12) ∧
    loadCalibration ⟨fun _ => ⟨3, 5, 4⟩, fun _ => ⟨3, 5, 4⟩⟩
      = .ok ⟨fun _ => ⟨3, 5, 4⟩, fun _ => ⟨3, 5, 4⟩⟩ ∧
    loadCalibration ⟨fun _ => ⟨3, 5, 4⟩, fun i => ⟨3, 5, if i = 2 then 0 else 4⟩⟩
      = .error .InvalidCalibration := by
  have hthm := applyCalibration_truncates (-7) ⟨3, 5, 4⟩ (by decide) (by decide)
  obtain ⟨r, hr, _, _, _, _, hfit⟩ := hthm.1 (by decide)
  refine ⟨by decide, by decide, by decide, ?_, ?_, ?_⟩
  · rw [hr, (hfit (by decide)).1]
    decide
  · exact hthm.2.2.2.1 _
      (fun _ => ⟨show (4 : Int) ≠ 0 by decide, show (4 : Int) ≠ 0 by decide⟩)
  · exact hthm.2.2.2.2 _ ⟨2, Or.inr (by decide)⟩

/-! ## Claim C10: teardown and shutdown -/

/-- C10: from every reachable state, `freeDeviceContext` leaves the context
in the state `Closed`, which is not `Disconnected`, which no sequence of
events leaves, and in which `reconnectDevice` fails whatever the transport
answers; whereas `shutdownDevice` on a session (a context not yet freed)
leaves it `Disconnected`, where `reconnectDevice` is valid: it returns what
the transport answers, never the contract violation of its own, and on `OK`
the session is `Connected` again. -/
theorem free_terminal_shutdown_recoverable (s : SessionState) (hs : Reachable s) :
    Reachable (freeDeviceContext s) ∧
    freeDeviceContext s = .Closed ∧
    freeDeviceContext s ≠ .Disconnected ∧
    (∀ ops : List SessionOp, runOps ops (freeDeviceContext s) = .Closed) ∧
    (∀ reopen : DS5W_ReturnValue,
      DS5W_FAILED (reconnectDevice reopen (freeDeviceContext s)).1 = true ∧
      DS5W_SUCCESS (reconnectDevice reopen (freeDeviceContext s)).1 = false ∧
      (reconnectDevice reopen (freeDeviceContext s)).2 = .Closed) ∧
    (s ≠ .Closed →
      Reachable (shutdownDevice s) ∧
      shutdownDevice s = .Disconnected ∧
      (∀ reopen : DS5W_ReturnValue,
        (reconnectDevice reopen (shutdownDevice s)).1 = reopen) ∧
      reconnectDevice DS5W_OK (shutdownDevice s) = (DS5W_OK, .Connected) ∧
      DS5W_SUCCESS (reconnectDevice DS5W_OK (shutdownDevice s)).1 = true ∧
      (∀ reopen : DS5W_ReturnValue, DS5W_FAILED reopen = true →
        (reconnectDevice reopen (shutdownDevice s)).2 = .Disconnected)) := by
  have hfree : freeDeviceContext s = .Closed := rfl
  rw [hfree]
  refine ⟨reachable_all _, rfl, by decide, fun ops => runOps_closed ops,
    by decide, ?_⟩
  intro hlive
  have hdis : shutdownDevice s = .Disconnected := by
    cases s
    · rfl
    · rfl
    · exact absurd rfl hlive
  rw [hdis]
  exact ⟨reachable_all _, rfl, by decide, by decide, by decide, by decide⟩

/-- Witness for C10: the state `Connected`, reached by no event at all. -/
theorem free_terminal_shutdown_recoverable_witness :
    Reachable .Connected ∧
    freeDeviceContext .Connected = .Closed ∧
    shutdownDevice .Connected = .Disconnected ∧
    reconnectDevice DS5W_OK (shutdownDevice .Connected) = (DS5W_OK, .Connected) :=
  ⟨⟨[], rfl⟩, rfl,
   ((free_terminal_shutdown_recoverable .Connected ⟨[], rfl⟩).2.2.2.2.2
      (by decide)).2.1,
   rfl⟩

/-! ## Claim C11: exact membership in a button map -/

/-- C11: the nineteen button flags are the powers of two `2 ^ 0 .. 2 ^ 18`,
pairwise without a common bit; so for flags `S` and a flag `f`, the button
map of `S` has a bit in common with `f` exactly when `f` is in `S` (and then
contains all of `f`), and two collections of flags with the same button map
have the same members. -/
theorem buttonMap_membership_exact (S T : List Nat) (f : Nat)
    (hS : ∀ g ∈ S, g ∈ buttonFlags) (hT : ∀ g ∈ T, g ∈ buttonFlags)
    (hf : f ∈ buttonFlags) :
    buttonFlags = (List.range 19).map (fun k => 2 ^ k) ∧
    buttonFlags.Nodup ∧
    buttonFlags.Pairwise (fun a b => a &&& b = 0) ∧
    (buttonMap S &&& f ≠ 0 ↔ f ∈ S) ∧
    (orAll S &&& f ≠ 0 ↔ f ∈ S) ∧
    (buttonMap S = buttonMap T → (∀ g : Nat, g ∈ S ↔ g ∈ T)) ∧
    (buttonMap S = buttonMap T → S.toFinset = T.toFinset) := by
  have hmem := buttonMap_and_ne_zero_iff S f hS hf
  have hsame : buttonMap S = buttonMap T → ∀ g : Nat, g ∈ S ↔ g ∈ T := by
    intro heq g
    constructor
    · intro hg
      have hgS := (buttonMap_and_ne_zero_iff S g hS (hS g hg)).mpr hg
      rw [heq] at hgS
      exact (buttonMap_and_ne_zero_iff T g hT (hS g hg)).mp hgS
    · intro hg
      have hgT := (buttonMap_and_ne_zero_iff T g hT (hT g hg)).mpr hg
      rw [← heq] at hgT
      exact (buttonMap_and_ne_zero_iff S g hS (hT g hg)).mp hgT
  refine ⟨by decide, by decide, by decide, hmem, ?_, hsame, ?_⟩
  · rw [← buttonMap_eq_orAll S hS]
    exact hmem
  · intro heq
    ext g
    rw [List.mem_toFinset, List.mem_toFinset]
    exact hsame heq g

/-- Witness for C11: CROSS is found in the map of CROSS and the left bumper,
and a list that repeats and reorders these two flags has the same members. -/
theorem buttonMap_membership_exact_witness :
    (buttonMap [DS5W_ISTATE_BTN_CROSS, DS5W_ISTATE_BTN_BUMPER_LEFT]
        &&& DS5W_ISTATE_BTN_CROSS ≠ 0 ↔
      DS5W_ISTATE_BTN_CROSS ∈ [DS5W_ISTATE_BTN_CROSS, DS5W_ISTATE_BTN_BUMPER_LEFT]) ∧
    (∀ g : Nat, g ∈ [DS5W_ISTATE_BTN_CROSS, DS5W_ISTATE_BTN_BUMPER_LEFT] ↔
      g ∈ [DS5W_ISTATE_BTN_BUMPER_LEFT, DS5W_ISTATE_BTN_CROSS,
        DS5W_ISTATE_BTN_CROSS]) :=
  ⟨(buttonMap_membership_exact
      [DS5W_ISTATE_BTN_CROSS, DS5W_ISTATE_BTN_BUMPER_LEFT]
      [DS5W_ISTATE_BTN_BUMPER_LEFT, DS5W_ISTATE_BTN_CROSS, DS5W_ISTATE_BTN_CROSS]
      DS5W_ISTATE_BTN_CROSS (by decide) (by decide) (by decide)).2.2.2.1,
   (buttonMap_membership_exact
      [DS5W_ISTATE_BTN_CROSS, DS5W_ISTATE_BTN_BUMPER_LEFT]
      [DS5W_ISTATE_BTN_BUMPER_LEFT, DS5W_ISTATE_BTN_CROSS, DS5W_ISTATE_BTN_CROSS]
      DS5W_ISTATE_BTN_CROSS (by decide) (by decide) (by decide)).2.2.2.2.2.1
      (by decide)⟩

/-! ## Claim C12: the two declarations of the return-value enumeration -/

/-- C12: the two declarations of `_DS5W_ReturnValue` evaluated name by name.
The first is the enumeration modelled above.  Its enumerators
`E_IO_TIMEDOUT` (9), `E_IO_NOT_FOUND` (11) and `E_IO_PENDING` (12) are not
enumerators of the second declaration, which has `E_IO_TIMEOUT` (9) instead
and ends at `E_IO_FAILED` (10); so the aliases `DS5W_E_IO_TIMEDOUT`,
`DS5W_E_IO_NOT_FOUND` and `DS5W_E_IO_PENDING` resolve under the first
declaration and under the second do not.  Every other enumerator and alias
has the same value under both. -/
theorem second_declaration_differs :
    returnValueDeclaration1 = returnValues.map (fun m => (m.identifier, m.code)) ∧
    (enumeratorNames returnValueDeclaration1).length = 13 ∧
    (enumeratorNames returnValueDeclaration2).length = 11 ∧
    enumeratorCode returnValueDeclaration1 "E_IO_TIMEDOUT" = some 9 ∧
    enumeratorCode returnValueDeclaration2 "E_IO_TIMEDOUT" = none ∧
    enumeratorCode returnValueDeclaration1 "E_IO_NOT_FOUND" = some 11 ∧
    enumeratorCode returnValueDeclaration2 "E_IO_NOT_FOUND" = none ∧
    enumeratorCode returnValueDeclaration1 "E_IO_PENDING" = some 12 ∧
    enumeratorCode returnValueDeclaration2 "E_IO_PENDING" = none ∧
    enumeratorCode returnValueDeclaration2 "E_IO_TIMEOUT" = some 9 ∧
    enumeratorCode returnValueDeclaration1 "E_IO_TIMEOUT" = none ∧
    resolveAlias returnValueDeclaration1 "DS5W_E_IO_TIMEDOUT"
      = some ("E_IO_TIMEDOUT", 9) ∧
    resolveAlias returnValueDeclaration2 "DS5W_E_IO_TIMEDOUT" = none ∧
    resolveAlias returnValueDeclaration1 "DS5W_E_IO_NOT_FOUND"
      = some ("E_IO_NOT_FOUND", 11) ∧
    resolveAlias returnValueDeclaration2 "DS5W_E_IO_NOT_FOUND" = none ∧
    resolveAlias returnValueDeclaration1 "DS5W_E_IO_PENDING"
      = some ("E_IO_PENDING", 12) ∧
    resolveAlias returnValueDeclaration2 "DS5W_E_IO_PENDING" = none ∧
    (∀ a ∈ aliasNames, (resolveAlias returnValueDeclaration1 a).isSome = true) ∧
    (∀ a ∈ aliasNames,
      a ∈ ["DS5W_E_IO_TIMEDOUT", "DS5W_E_IO_NOT_FOUND", "DS5W_E_IO_PENDING"] ∨
      resolveAlias returnValueDeclaration1 a = resolveAlias returnValueDeclaration2 a) ∧
    (∀ n ∈ enumeratorNames returnValueDeclaration1,
      n ∈ ["E_IO_TIMEDOUT", "E_IO_NOT_FOUND", "E_IO_PENDING"] ∨
      enumeratorCode returnValueDeclaration1 n = enumeratorCode returnValueDeclaration2 n) ∧
    (∀ n ∈ enumeratorNames returnValueDeclaration2,
      n = "E_IO_TIMEOUT" ∨
      enumeratorCode returnValueDeclaration1 n = enumeratorCode returnValueDeclaration2 n) ∧
    ¬ (∀ n ∈ enumeratorNames returnValueDeclaration1,
      enumeratorCode returnValueDeclaration2 n = enumeratorCode returnValueDeclaration1 n) ∧
    ¬ (∀ n ∈ enumeratorNames returnValueDeclaration2,
      enumeratorCode returnValueDeclaration1 n = enumeratorCode returnValueDeclaration2 n) ∧
    ¬ (∀ a ∈ aliasNames,
      resolveAlias returnValueDeclaration1 a = resolveAlias returnValueDeclaration2 a) := by
  decide

end DS5W
